import Mathlib

/-!
Shallow embedding of `src/main.py` (TMF video-to-article generator).

The program is a single-module pipeline: extract an 11-character video id
from a URL, fetch a transcript from the transcript provider (preferring
manually created English-variant captions over generated ones), join the
fragment texts with single spaces, send the result together with a fixed
system instruction to the completion provider, and render the returned
draft.  External collaborators (the transcript provider and the completion
provider) are modelled as explicit parameters: a function from video id to
a listing outcome, and a function from a generation request to a completion
outcome.  Machine floats never flow through any logic that is verified
here; the fixed temperature 0.7 is modelled as the rational 7/10.
-/

namespace YtToArticle

/-! ### Identifier Extractor (src/main.py, get_video_id, lines 40 to 46)

The regex is  (?:v=|\/)([0-9A-Za-z_-]{11}).*  applied with re.search,
which scans for the leftmost position where the pattern matches; at a
given position the alternative v= is tried before the slash, and the
trailing .* never fails.  The capture group is 11 characters from the
class [0-9A-Za-z_-]. -/

/-- One character of the capture class [0-9A-Za-z_-] (ASCII only, as in
the Python pattern). -/
def isIdChar (c : Char) : Bool :=
  c.isAlphanum || c = '_' || c = '-'

/-- The capture group: exactly 11 characters of the class, taken from the
front of the remaining input; fails otherwise. -/
def takeId (cs : List Char) : Option (List Char) :=
  let ids := cs.take 11
  if ids.length = 11 && ids.all isIdChar then some ids else none

/-- Try the pattern at one position: literal v= (tried first) or a single
slash, followed by the capture group. -/
def matchAt (cs : List Char) : Option (List Char) :=
  match cs with
  | c :: d :: rest =>
      if c = 'v' && d = '=' then takeId rest
      else if c = '/' then takeId (d :: rest)
      else none
  | [c] => if c = '/' then takeId [] else none
  | [] => none

/-- re.search: leftmost position whose match succeeds. -/
def searchId : List Char → Option (List Char)
  | [] => none
  | c :: cs =>
      match matchAt (c :: cs) with
      | some r => some r
      | none => searchId cs

/-- get_video_id from src/main.py: the captured group of the first match,
or the not-found signal. -/
def get_video_id (url : String) : Option String :=
  (searchId url.data).map fun cs => String.mk cs

/-! ### Transcript Fetcher (src/main.py, get_transcript, lines 48 to 71)

The transcript provider is modelled by the outcome of
YouTubeTranscriptApi.list_transcripts(video_id): either an exception that
carries a message, or a transcript list holding the manually created and
the generated transcripts, each keyed by its language code.  A transcript
exposes the outcome of its own fetch() call: a fragment sequence, or an
exception; a fragment is the dict with keys text, start and duration, of
which only text is consumed (the timing values are floats in the source
and never touch the logic, so integers stand in for them here). -/

/-- One transcript fragment as returned by fetch(): only the text field is
consumed by the program. -/
structure Fragment where
  text : String
  start : Int
  duration : Int

deriving instance DecidableEq for Fragment

/-- The outcome of transcript.fetch(). -/
inductive FetchResult where
  | ok (fragments : List Fragment)
  | exn (msg : String)

deriving instance DecidableEq for FetchResult

/-- One transcript of the listing: its language code, whether it is
generated is encoded by which field of the listing holds it, and the
outcome of fetching it. -/
structure Transcript where
  language_code : String
  fetch : FetchResult

deriving instance DecidableEq for Transcript

/-- The listing returned by list_transcripts, split as the library stores
it: manually created transcripts and generated ones. -/
structure TranscriptList where
  manual : List Transcript
  generated : List Transcript

deriving instance DecidableEq for TranscriptList

/-- The outcome of YouTubeTranscriptApi.list_transcripts(video_id). -/
inductive ListResult where
  | ok (tl : TranscriptList)
  | exn (msg : String)

deriving instance DecidableEq for ListResult

/-- The locale priority list passed to both find calls in the source:
['en', 'en-AU', 'en-GB', 'en-US']. -/
def english_variants : List String := ["en", "en-AU", "en-GB", "en-US"]

/-- find_transcript of the library: walk the requested language codes in
order and return the first transcript whose language code matches; the
library keys transcripts by language code, so lookup by code is the first
hit in the stored collection. -/
def find_transcript (language_codes : List String) (ts : List Transcript) :
    Option Transcript :=
  match language_codes with
  | [] => none
  | l :: ls =>
      match ts.find? (fun t => t.language_code == l) with
      | some t => some t
      | none => find_transcript ls ts

/-- transcript_list.find_manually_created_transcript(codes). -/
def find_manually_created (tl : TranscriptList) (codes : List String) :
    Option Transcript :=
  find_transcript codes tl.manual

/-- transcript_list.find_generated_transcript(codes). -/
def find_generated (tl : TranscriptList) (codes : List String) :
    Option Transcript :=
  find_transcript codes tl.generated

/-- Lines 55 to 61 of the source: try the manual English variants first,
fall back to the generated ones, in both cases with the same priority
list. -/
def select_transcript (tl : TranscriptList) : Option Transcript :=
  match find_manually_created tl english_variants with
  | some t => some t
  | none => find_generated tl english_variants

/-- The sentinel string returned on line 61 when neither find succeeds. -/
def no_transcript_message : String :=
  "Error: No English transcript found for this video."

/-- get_transcript from src/main.py.  The outer try wraps the listing, the
selection, the fetch and the join, and maps any exception e to the string
Error: followed by str(e); when both finds fail the inner returns the
sentinel message. -/
def get_transcript (video_id : String) (provider : String → ListResult) :
    String :=
  match provider video_id with
  | .exn e => "Error: " ++ e
  | .ok transcript_list =>
      match select_transcript transcript_list with
      | none => no_transcript_message
      | some transcript =>
          match transcript.fetch with
          | .exn e => "Error: " ++ e
          | .ok transcript_data =>
              String.intercalate " " (transcript_data.map Fragment.text)

/-! ### Prompt Assembler and Draft Generator (src/main.py, generate_article, lines 73 to 109)

The completion provider is modelled as a function from the request the
program builds (model identifier, ordered role-tagged messages,
temperature) to an outcome: the returned content, or an exception carrying
a message.  The temperature literal 0.7 of the source is modelled as the
rational 7/10. -/

/-- The triple-quoted system prompt of lines 78 to 96, byte for byte
(including the leading newline, the four-space indentation of every line,
the trailing blank after the first sentence, and the trailing indent
before the closing quotes). -/
def system_prompt : String :=
  "\n    You are a senior financial editor for The Motley Fool Australia. \n"
    ++ "    Your goal is to transform a video transcript into a high-quality, educational news article.\n"
    ++ "\n    TONE GUIDELINES:\n"
    ++ "    - **Educational & Analytical:** The video is likely analyzing a stock or market news. Your job is to summarize this analysis clearly.\n"
    ++ "    - **Humble but Confident:** Use \"we\" and \"us\" to represent the Fool team.\n"
    ++ "    - **Long-term Mindset:** Focus on the business fundamentals discussed, not just daily price moves.\n"
    ++ "    - **Compliance Safe:** Use language like \"investors might watch\" or \"the company reported,\" rather than \"you must buy this.\"\n"
    ++ "\n    STRUCTURE:\n"
    ++ "    1. **Headline:** Compelling and news-focused (e.g., \"Why CSL Shares Are Moving Today\").\n"
    ++ "    2. **The Lede:** A 2-3 sentence intro summarizing the main topic or news event.\n"
    ++ "    3. **Key Points:** Use short paragraphs or bullet points to explain the analysis provided in the video.\n"
    ++ "    4. **The Foolish View:** A concluding paragraph that summarizes the long-term implication for investors.\n"
    ++ "    5. **Transition:** A final sentence that naturally leads the reader to want more information (e.g., \"While this is a strong company, there are other opportunities we are watching...\"). This serves as a bridge to our email capture form.\n"
    ++ "\n    Input Text:\n    "

/-- One role-tagged message of the chat request. -/
structure Message where
  role : String
  content : String

deriving instance DecidableEq for Message

/-- The ephemeral bundle sent to client.chat.completions.create. -/
structure GenerationRequest where
  model : String
  messages : List Message
  temperature : ℚ

deriving instance DecidableEq for GenerationRequest

/-- The outcome of the remote completion call: the message content of the
first choice, or an exception carrying a message. -/
inductive CompletionResult where
  | ok (content : String)
  | exn (msg : String)

deriving instance DecidableEq for CompletionResult

/-- The request generate_article builds on lines 99 to 105: fixed model
gpt-4o, the system prompt verbatim, the transcript text unmodified as the
user message, temperature 0.7. -/
def sent_request (transcript_text : String) : GenerationRequest :=
  { model := "gpt-4o"
    messages := [⟨"system", system_prompt⟩, ⟨"user", transcript_text⟩]
    temperature := 7 / 10 }

/-- generate_article from src/main.py: one blocking call; on success the
returned content, on any exception the string OpenAI Error: followed by
str(e). -/
def generate_article (transcript_text : String)
    (client : GenerationRequest → CompletionResult) : String :=
  match client (sent_request transcript_text) with
  | .ok content => content
  | .exn e => "OpenAI Error: " ++ e

/-! ### Presentation layer processing logic (src/main.py, lines 124 to 149)

The button-press handler: warn on an empty URL, reject when no video id is
extracted, fetch the transcript, and discriminate transcript success from
failure by the Python substring test "Error:" in transcript; only on the
success side is generate_article invoked, and its result is always
rendered as the draft (success banner, markdown body, download button)
with no check of its own. -/

/-- Python list/string containment helper: does the pattern occur at the
head of the character list. -/
def starts_with : List Char → List Char → Bool
  | [], _ => true
  | _ :: _, [] => false
  | p :: ps, c :: cs => (p == c) && starts_with ps cs

/-- Python substring containment (the expression "Error:" in transcript):
the pattern occurs at some position of the character list. -/
def contains_sub (pat : List Char) : List Char → Bool
  | [] => starts_with pat []
  | c :: cs => starts_with pat (c :: cs) || contains_sub pat cs

/-- The two external collaborators a run consults. -/
structure Env where
  listing : String → ListResult
  client : GenerationRequest → CompletionResult

/-- What the handler presents for one button press. -/
inductive UIOutcome where
  | warned_empty_url
  | error_no_video_id
  | error_transcript (shown : String)
  | draft_ready (article_draft : String) (transcript : String)

deriving instance DecidableEq for UIOutcome

/-- Lines 124 to 149 of src/main.py: the outcome of one button press,
paired with whether generate_article was invoked during the run. -/
def process (youtube_url : String) (env : Env) : UIOutcome × Bool :=
  if youtube_url = "" then (.warned_empty_url, false)
  else
    match get_video_id youtube_url with
    | none => (.error_no_video_id, false)
    | some video_id =>
        let transcript := get_transcript video_id env.listing
        if contains_sub "Error:".data transcript.data then
          (.error_transcript transcript, false)
        else
          let article_draft := generate_article transcript env.client
          (.draft_ready article_draft transcript, true)

/-! ### Lemmas about the Identifier Extractor -/

theorem takeId_some {cs ids : List Char} (h : takeId cs = some ids) :
    ids.length = 11 ∧ ids.all isIdChar = true := by
  simp only [takeId] at h
  split at h
  · rename_i hcond
    cases h
    simpa [Bool.and_eq_true] using hcond
  · exact absurd h (by simp)

theorem matchAt_some {cs ids : List Char} (h : matchAt cs = some ids) :
    ids.length = 11 ∧ ids.all isIdChar = true := by
  rcases cs with _ | ⟨c, _ | ⟨d, rest⟩⟩
  · simp [matchAt] at h
  · simp only [matchAt] at h
    split at h
    · exact takeId_some h
    · exact absurd h (by simp)
  · simp only [matchAt] at h
    split at h
    · exact takeId_some h
    · split at h
      · exact takeId_some h
      · exact absurd h (by simp)

theorem searchId_exists {cs r : List Char} (h : searchId cs = some r) :
    ∃ n, matchAt (cs.drop n) = some r := by
  induction cs with
  | nil => simp [searchId] at h
  | cons c cs ih =>
      simp only [searchId] at h
      split at h
      · rename_i heq
        exact ⟨0, by rw [List.drop_zero, heq, h]⟩
      · obtain ⟨n, hn⟩ := ih h
        exact ⟨n + 1, by simpa using hn⟩

theorem searchId_leftmost (n : Nat) (r : List Char) :
    ∀ cs : List Char, (∀ j, j < n → matchAt (cs.drop j) = none) →
      matchAt (cs.drop n) = some r → searchId cs = some r := by
  induction n with
  | zero =>
      intro cs _ h
      rw [List.drop_zero] at h
      rcases cs with _ | ⟨c, cs⟩
      · simp [matchAt] at h
      · simp [searchId, h]
  | succ n ih =>
      intro cs hnone h
      rcases cs with _ | ⟨c, cs⟩
      · rw [List.drop_nil] at h
        simp [matchAt] at h
      · have h0 : matchAt (c :: cs) = none := by
          have := hnone 0 (Nat.succ_pos n)
          rwa [List.drop_zero] at this
        rw [searchId, h0]
        refine ih cs (fun j hj => ?_) (by simpa using h)
        have := hnone (j + 1) (by omega)
        simpa using this

theorem searchId_eq_none :
    ∀ cs : List Char, (∀ n, matchAt (cs.drop n) = none) → searchId cs = none := by
  intro cs
  induction cs with
  | nil => intro _; simp [searchId]
  | cons c cs ih =>
      intro h
      have h0 : matchAt (c :: cs) = none := by
        have := h 0
        rwa [List.drop_zero] at this
      rw [searchId, h0]
      exact ih fun n => by have := h (n + 1); simpa using this

/-- C3 (amended): when the leftmost position of the URL at which the
pattern matches is a v= occurrence, get_video_id returns exactly the 11
class characters that follow the v= marker; trailing URL parameters are
ignored.  (The claim as frozen is refuted by the counterexample below:
a slash followed by 11 class characters earlier in the URL wins over the
v= occurrence, so the extractor need not return the characters after v=.) -/
theorem get_video_id_of_first_match_v (url : String) (i : Nat)
    (rest ids : List Char)
    (hv : url.data.drop i = 'v' :: '=' :: rest)
    (hid : takeId rest = some ids)
    (hmin : ∀ j, j < i → matchAt (url.data.drop j) = none) :
    get_video_id url = some (String.mk ids) := by
  have hm : matchAt (url.data.drop i) = some ids := by
    rw [hv]
    simpa [matchAt] using hid
  have hs : searchId url.data = some ids :=
    searchId_leftmost i ids url.data hmin hm
  rw [get_video_id, hs]
  rfl

/-- C3 scenario witness: on the scenario URL the first match is the v=
occurrence and the extractor returns abcDEFghi12. -/
theorem get_video_id_scenario :
    get_video_id "https://www.youtube.com/watch?v=abcDEFghi12" = some "abcDEFghi12" :=
  get_video_id_of_first_match_v "https://www.youtube.com/watch?v=abcDEFghi12" 30
    "abcDEFghi12".data "abcDEFghi12".data (by decide) (by decide) (by decide)

/-- C3 counterexample: this URL contains v= immediately followed by the 11
class characters ABCDEFGHIJK (takeId accepts them), yet the extractor
returns the 11 host characters after the second slash, because the slash
alternative matches at an earlier position. -/
theorem get_video_id_slash_beats_v :
    "https://abcdefghijk?v=ABCDEFGHIJK".data.drop 20
        = 'v' :: '=' :: "ABCDEFGHIJK".data ∧
      takeId "ABCDEFGHIJK".data = some "ABCDEFGHIJK".data ∧
      get_video_id "https://abcdefghijk?v=ABCDEFGHIJK" = some "abcdefghijk" ∧
      get_video_id "https://abcdefghijk?v=ABCDEFGHIJK" ≠ some "ABCDEFGHIJK" := by
  decide

/-- C8: a URL at which the pattern matches nowhere yields the not-found
signal, and every returned identifier is exactly 11 characters drawn from
the class [0-9A-Za-z_-], never a malformed partial string. -/
theorem get_video_id_well_formed :
    (∀ url : String,
        (∀ n, n ≤ url.data.length → matchAt (url.data.drop n) = none) →
        get_video_id url = none) ∧
    (∀ (url s : String), get_video_id url = some s →
        s.length = 11 ∧ s.data.all isIdChar = true) := by
  constructor
  · intro url h
    have hall : ∀ n, matchAt (url.data.drop n) = none := by
      intro n
      rcases le_or_lt n url.data.length with hle | hlt
      · exact h n hle
      · rw [List.drop_eq_nil_of_le (le_of_lt hlt)]
        rfl
    rw [get_video_id, searchId_eq_none url.data hall]
    rfl
  · intro url s h
    rw [get_video_id] at h
    rcases hs : searchId url.data with _ | r
    · rw [hs] at h
      exact absurd h (by simp)
    · rw [hs] at h
      simp only [Option.map_some', Option.some_inj] at h
      obtain ⟨n, hn⟩ := searchId_exists hs
      have := matchAt_some hn
      rcases this with ⟨h1, h2⟩
      subst h
      exact ⟨h1, h2⟩

/-- C8 witness: a string with no pattern occurrence yields none, and the
identifier extracted from the scenario URL is 11 class characters. -/
theorem get_video_id_well_formed_witness :
    get_video_id "hello world!" = none ∧
      ("abcDEFghi12".length = 11 ∧ "abcDEFghi12".data.all isIdChar = true) :=
  ⟨get_video_id_well_formed.1 "hello world!" (by decide),
   get_video_id_well_formed.2 "https://www.youtube.com/watch?v=abcDEFghi12"
     "abcDEFghi12" (by decide)⟩

/-! ### Lemmas about transcript selection -/

theorem find_transcript_mem (langs : List String) :
    ∀ (ts : List Transcript) (t : Transcript),
      find_transcript langs ts = some t →
        t ∈ ts ∧ t.language_code ∈ langs := by
  induction langs with
  | nil => intro ts t h; simp [find_transcript] at h
  | cons l ls ih =>
      intro ts t h
      simp only [find_transcript] at h
      split at h
      · rename_i u heq
        cases h
        refine ⟨List.mem_of_find?_eq_some heq, ?_⟩
        have := List.find?_some heq
        simp only [beq_iff_eq] at this
        simp [this]
      · rcases ih ts t h with ⟨h1, h2⟩
        exact ⟨h1, by simp [h2]⟩

theorem find_transcript_of_no_lang (langs : List String) :
    ∀ ts : List Transcript,
      (∀ u ∈ ts, u.language_code ∉ langs) →
      find_transcript langs ts = none := by
  induction langs with
  | nil => intro ts _; simp [find_transcript]
  | cons l ls ih =>
      intro ts h
      have hf : ts.find? (fun t => t.language_code == l) = none := by
        rw [List.find?_eq_none]
        intro u hu
        simp only [beq_iff_eq]
        intro heq
        exact h u hu (by simp [heq])
      simp only [find_transcript, hf]
      exact ih ts fun u hu hm => h u hu (by simp [hm])

theorem find_transcript_none_no_lang (langs : List String) :
    ∀ ts : List Transcript,
      find_transcript langs ts = none →
      ∀ u ∈ ts, u.language_code ∉ langs := by
  induction langs with
  | nil => intro ts _ u _; simp
  | cons l ls ih =>
      intro ts h u hu
      simp only [find_transcript] at h
      split at h
      · rename_i v heq
        exact absurd h (by simp)
      · rename_i heq
        have hnl : u.language_code ≠ l := by
          have := List.find?_eq_none.mp heq u hu
          simpa using this
        have := ih ts h u hu
        simp [hnl, this]

theorem find_transcript_priority (langs : List String) :
    ∀ (ts : List Transcript) (t : Transcript),
      find_transcript langs ts = some t →
        ∃ k, ∃ hk : k < langs.length,
          ts.find? (fun u => u.language_code == langs[k]) = some t ∧
          ∀ j, ∀ _ : j < langs.length, j < k →
            ts.find? (fun u => u.language_code == langs[j]) = none := by
  induction langs with
  | nil => intro ts t h; simp [find_transcript] at h
  | cons l ls ih =>
      intro ts t h
      simp only [find_transcript] at h
      split at h
      · rename_i u heq
        cases h
        refine ⟨0, by simp, by simpa using heq, ?_⟩
        intro j _ hj
        omega
      · rename_i heq
        obtain ⟨k, hk, h1, h2⟩ := ih ts t h
        refine ⟨k + 1, by simpa using Nat.succ_lt_succ hk, by simpa using h1, ?_⟩
        intro j hj hjk
        rcases j with _ | j
        · simpa using heq
        · have hj' : j < ls.length := by simpa using hj
          have := h2 j hj' (by omega)
          simpa using this

/-- C2: when the listing succeeds and carries no transcript (manual or
generated) for any of the four English variants, get_transcript returns
the dedicated no-transcript sentinel, which is not the empty string; a
listing exception instead yields the distinct outcome Error: followed by
the provider message verbatim. -/
theorem get_transcript_no_english :
    (∀ (vid : String) (provider : String → ListResult) (tl : TranscriptList),
        provider vid = .ok tl →
        (∀ u ∈ tl.manual, u.language_code ∉ english_variants) →
        (∀ u ∈ tl.generated, u.language_code ∉ english_variants) →
        get_transcript vid provider = no_transcript_message ∧
          get_transcript vid provider ≠ "") ∧
    (∀ (vid : String) (provider : String → ListResult) (m : String),
        provider vid = .exn m →
        get_transcript vid provider = "Error: " ++ m) := by
  constructor
  · intro vid provider tl hok hman hgen
    have h1 : find_transcript english_variants tl.manual = none :=
      find_transcript_of_no_lang english_variants tl.manual hman
    have h2 : find_transcript english_variants tl.generated = none :=
      find_transcript_of_no_lang english_variants tl.generated hgen
    have hsel : select_transcript tl = none := by
      simp [select_transcript, find_manually_created, find_generated, h1, h2]
    have hval : get_transcript vid provider = no_transcript_message := by
      simp [get_transcript, hok, hsel]
    exact ⟨hval, by rw [hval]; decide⟩
  · intro vid provider m hexn
    rw [get_transcript, hexn]

/-- C2 witness: a listing holding only a French manual transcript yields
the sentinel and not the empty string. -/
theorem get_transcript_no_english_witness :
    get_transcript "dQw4w9WgXcQ" (fun _ => .ok ⟨[⟨"fr", .ok []⟩], []⟩)
        = no_transcript_message ∧
      get_transcript "dQw4w9WgXcQ" (fun _ => .ok ⟨[⟨"fr", .ok []⟩], []⟩) ≠ "" :=
  get_transcript_no_english.1 "dQw4w9WgXcQ" (fun _ => .ok ⟨[⟨"fr", .ok []⟩], []⟩)
    ⟨[⟨"fr", .ok []⟩], []⟩ rfl (by decide) (by decide)

/-- C4: whenever a manual transcript exists for one of the four English
variants the selection returns a manual one; only when no manual English
variant exists does selection fall back to the generated transcripts; and
within one category the priority is the order en, en-AU, en-GB, en-US,
first available wins. -/
theorem select_transcript_manual_first :
    (∀ tl : TranscriptList,
        (∃ u ∈ tl.manual, u.language_code ∈ english_variants) →
        ∃ t, select_transcript tl = some t ∧ t ∈ tl.manual ∧
          t.language_code ∈ english_variants) ∧
    (∀ tl : TranscriptList,
        find_manually_created tl english_variants = none →
        select_transcript tl = find_generated tl english_variants) ∧
    (∀ (ts : List Transcript) (t : Transcript),
        find_transcript english_variants ts = some t →
          ∃ k, ∃ hk : k < english_variants.length,
            ts.find? (fun u => u.language_code == english_variants[k]) = some t ∧
            ∀ j, ∀ _ : j < english_variants.length, j < k →
              ts.find? (fun u => u.language_code == english_variants[j]) = none) := by
  refine ⟨?_, ?_, find_transcript_priority english_variants⟩
  · intro tl hex
    rcases hf : find_transcript english_variants tl.manual with _ | t
    · exfalso
      obtain ⟨u, hu, hlang⟩ := hex
      exact find_transcript_none_no_lang english_variants tl.manual hf u hu hlang
    · rcases find_transcript_mem english_variants tl.manual t hf with ⟨h1, h2⟩
      exact ⟨t, by simp [select_transcript, find_manually_created, hf], h1, h2⟩
  · intro tl h
    simp [select_transcript, h]

/-- C4 witness: with a manual en-GB transcript and a generated en
transcript, selection returns the manual one even though the generated one
carries a higher-priority locale; and the priority structure of the find
is exhibited on a one-element list. -/
theorem select_transcript_manual_first_witness :
    (∃ t, select_transcript ⟨[⟨"en-GB", .ok []⟩], [⟨"en", .ok []⟩]⟩ = some t ∧
        t ∈ [Transcript.mk "en-GB" (.ok [])] ∧
        t.language_code ∈ english_variants) ∧
    (∃ k, ∃ hk : k < english_variants.length,
        [Transcript.mk "en-GB" (.ok [])].find?
            (fun u => u.language_code == english_variants[k])
          = some ⟨"en-GB", .ok []⟩ ∧
        ∀ j, ∀ _ : j < english_variants.length, j < k →
          [Transcript.mk "en-GB" (.ok [])].find?
              (fun u => u.language_code == english_variants[j]) = none) :=
  ⟨select_transcript_manual_first.1 ⟨[⟨"en-GB", .ok []⟩], [⟨"en", .ok []⟩]⟩
      ⟨⟨"en-GB", .ok []⟩, by decide, by decide⟩,
   select_transcript_manual_first.2.2 [⟨"en-GB", .ok []⟩] ⟨"en-GB", .ok []⟩
      (by decide)⟩

/-- C6: when the listing succeeds, a transcript is selected and its fetch
succeeds, get_transcript is exactly the fragment texts joined with single
spaces in their original order, with no other transformation. -/
theorem get_transcript_joins_fragments (vid : String)
    (provider : String → ListResult) (tl : TranscriptList) (t : Transcript)
    (frags : List Fragment)
    (h1 : provider vid = .ok tl)
    (h2 : select_transcript tl = some t)
    (h3 : t.fetch = .ok frags) :
    get_transcript vid provider
      = String.intercalate " " (frags.map Fragment.text) := by
  simp [get_transcript, h1, h2, h3]

/-- C6 witness: fragments Hello and world yield exactly the string
Hello world. -/
theorem get_transcript_joins_fragments_witness :
    get_transcript "abcDEFghi12"
        (fun _ => .ok ⟨[⟨"en", .ok [⟨"Hello", 0, 1⟩, ⟨"world", 1, 1⟩]⟩], []⟩)
      = "Hello world" := by
  have h := get_transcript_joins_fragments "abcDEFghi12"
    (fun _ => .ok ⟨[⟨"en", .ok [⟨"Hello", 0, 1⟩, ⟨"world", 1, 1⟩]⟩], []⟩)
    ⟨[⟨"en", .ok [⟨"Hello", 0, 1⟩, ⟨"world", 1, 1⟩]⟩], []⟩
    ⟨"en", .ok [⟨"Hello", 0, 1⟩, ⟨"world", 1, 1⟩]⟩
    [⟨"Hello", 0, 1⟩, ⟨"world", 1, 1⟩]
    rfl (by decide) rfl
  exact h.trans (by decide)

/-- C7: for every transcript text, the request sent to the completion
provider carries the fixed model gpt-4o, the fixed temperature 0.7, the
fixed system instruction verbatim as the system message and the given text
unmodified as the user message; and generate_article consults the provider
exactly on that request, returning its content on success. -/
theorem sent_request_fixed_shape :
    ∀ transcript_text : String,
      (sent_request transcript_text).model = "gpt-4o" ∧
      (sent_request transcript_text).temperature = 7 / 10 ∧
      (sent_request transcript_text).messages
        = [⟨"system", system_prompt⟩, ⟨"user", transcript_text⟩] ∧
      ∀ client : GenerationRequest → CompletionResult,
        generate_article transcript_text client
          = match client (sent_request transcript_text) with
            | .ok content => content
            | .exn e => "OpenAI Error: " ++ e := by
  intro transcript_text
  exact ⟨rfl, rfl, rfl, fun _ => rfl⟩

/-! ### Lemmas about the substring discrimination of the handler -/

theorem contains_sub_of_starts_with (pat : List Char) :
    ∀ l : List Char, starts_with pat l = true → contains_sub pat l = true := by
  intro l h
  rcases l with _ | ⟨c, cs⟩
  · simpa [contains_sub] using h
  · simp [contains_sub, h]

theorem starts_with_error_append (m : String) :
    starts_with "Error:".data ("Error: " ++ m).data = true := rfl

/-- The three failure shapes of the transcript step. -/
def transcript_step_fails (vid : String) (listing : String → ListResult) :
    Prop :=
  (∃ m, listing vid = .exn m) ∨
  (∃ tl, listing vid = .ok tl ∧ select_transcript tl = none) ∨
  (∃ tl t m, listing vid = .ok tl ∧ select_transcript tl = some t ∧
      t.fetch = .exn m)

theorem marker_of_failure {vid : String} {listing : String → ListResult}
    (h : transcript_step_fails vid listing) :
    contains_sub "Error:".data (get_transcript vid listing).data = true := by
  rcases h with ⟨m, hm⟩ | ⟨tl, htl, hsel⟩ | ⟨tl, t, m, htl, hsel, hf⟩
  · have : get_transcript vid listing = "Error: " ++ m := by
      simp [get_transcript, hm]
    rw [this]
    exact contains_sub_of_starts_with _ _ (starts_with_error_append m)
  · have : get_transcript vid listing = no_transcript_message := by
      simp [get_transcript, htl, hsel]
    rw [this]
    decide
  · have : get_transcript vid listing = "Error: " ++ m := by
      simp [get_transcript, htl, hsel, hf]
    rw [this]
    exact contains_sub_of_starts_with _ _ (starts_with_error_append m)

/-- C5: in every run whose transcript step fails (listing exception, no
English transcript, or fetch exception), the handler presents the
transcript failure and generate_article is never invoked: the run pair
carries the invoked flag false. -/
theorem process_short_circuits (url vid : String) (env : Env)
    (hne : url ≠ "")
    (hvid : get_video_id url = some vid)
    (hfail : transcript_step_fails vid env.listing) :
    process url env
      = (.error_transcript (get_transcript vid env.listing), false) := by
  have hm := marker_of_failure hfail
  simp [process, hne, hvid, hm]

/-- C5 witness: a provider that reports no transcripts at all makes the
run end in the no-transcript message with the generator not invoked, even
though the completion provider stands ready. -/
theorem process_short_circuits_witness :
    process "https://www.youtube.com/watch?v=abcDEFghi12"
        ⟨fun _ => .ok ⟨[], []⟩, fun _ => .ok "never used"⟩
      = (.error_transcript "Error: No English transcript found for this video.",
          false) :=
  process_short_circuits "https://www.youtube.com/watch?v=abcDEFghi12"
    "abcDEFghi12" ⟨fun _ => .ok ⟨[], []⟩, fun _ => .ok "never used"⟩
    (by decide) (by decide) (Or.inr (Or.inl ⟨⟨[], []⟩, rfl, rfl⟩))

/-- C10: a run whose transcript step genuinely succeeds but whose joined
fragment text contains the substring Error: is classified as a transcript
failure by the handler: the transcript text itself is presented as the
error message and generate_article is never invoked, because success and
failure are discriminated by the substring test rather than by a typed
result. -/
theorem process_misclassifies_error_text (url vid : String) (env : Env)
    (tl : TranscriptList) (t : Transcript) (frags : List Fragment)
    (hne : url ≠ "")
    (hvid : get_video_id url = some vid)
    (hlist : env.listing vid = .ok tl)
    (hsel : select_transcript tl = some t)
    (hfetch : t.fetch = .ok frags)
    (herr : contains_sub "Error:".data
        (String.intercalate " " (frags.map Fragment.text)).data = true) :
    process url env
      = (.error_transcript (String.intercalate " " (frags.map Fragment.text)),
          false) := by
  have htr : get_transcript vid env.listing
      = String.intercalate " " (frags.map Fragment.text) := by
    simp [get_transcript, hlist, hsel, hfetch]
  simp [process, hne, hvid, htr, herr]

/-- C10 witness: a successfully fetched transcript whose text contains
Error: is shown as an error and the generator is not called. -/
theorem process_misclassifies_error_text_witness :
    process "https://youtu.be/abcDEFghi12"
        ⟨fun _ => .ok ⟨[⟨"en", .ok [⟨"Error: a cautionary tale", 0, 3⟩]⟩], []⟩,
         fun _ => .ok "never used"⟩
      = (.error_transcript "Error: a cautionary tale", false) :=
  process_misclassifies_error_text "https://youtu.be/abcDEFghi12" "abcDEFghi12"
    ⟨fun _ => .ok ⟨[⟨"en", .ok [⟨"Error: a cautionary tale", 0, 3⟩]⟩], []⟩,
     fun _ => .ok "never used"⟩
    ⟨[⟨"en", .ok [⟨"Error: a cautionary tale", 0, 3⟩]⟩], []⟩
    ⟨"en", .ok [⟨"Error: a cautionary tale", 0, 3⟩]⟩
    [⟨"Error: a cautionary tale", 0, 3⟩]
    (by decide) (by decide) rfl (by decide) rfl (by decide)

/-- C1: the failing run.  With a valid URL, an available English
transcript, and a completion call that raises with the message
rate limit exceeded, the handler ends in draft_ready: the success banner
is shown, generate_article was invoked, and the string OpenAI Error:
followed by the provider message verbatim is rendered and offered for
download as the article draft.  The generation failure is thus presented
as successful draft content, not as a distinct error message. -/
theorem process_presents_failed_generation_as_draft :
    process "https://www.youtube.com/watch?v=abcDEFghi12"
        ⟨fun _ => .ok ⟨[⟨"en", .ok [⟨"Great results this quarter", 0, 4⟩]⟩], []⟩,
         fun _ => .exn "rate limit exceeded"⟩
      = (.draft_ready ("OpenAI Error: " ++ "rate limit exceeded")
          "Great results this quarter", true) := by
  decide

/-- C9 (amended): the input surface is a single URL field and every input
passes through identifier extraction; an input in which the pattern
matches nowhere, such as freeform pasted text, is rejected with the
check-the-URL error before any transcript fetch or generation, so no
pasted text is ever used directly as transcript text. -/
theorem process_always_extracts (url : String) (env : Env)
    (hne : url ≠ "")
    (h : get_video_id url = none) :
    process url env = (.error_no_video_id, false) := by
  simp [process, hne, h]

/-- C9 counterexample: freeform pasted notes are not accepted as direct
transcript text; the run rejects them at the extraction step and no
generation request is produced from them. -/
theorem process_rejects_pasted_text :
    get_video_id "freeform pasted notes about two stocks" = none ∧
      process "freeform pasted notes about two stocks"
          ⟨fun _ => .ok ⟨[], []⟩, fun _ => .ok "a draft"⟩
        = (.error_no_video_id, false) := by
  decide

/-- C9 witness: another pasted text is likewise rejected at the extraction
step. -/
theorem process_always_extracts_witness :
    process "pasted transcript text for an article"
        ⟨fun _ => .ok ⟨[], []⟩, fun _ => .ok "a draft"⟩
      = (.error_no_video_id, false) :=
  process_always_extracts "pasted transcript text for an article"
    ⟨fun _ => .ok ⟨[], []⟩, fun _ => .ok "a draft"⟩ (by decide) (by decide)

end YtToArticle
